import Mathlib

/-!
Shallow embedding of the vocabulary-drilling application in `src/main.py`:
the list-field codec (`parse_list`), the SRS scheduler (`get_next_word`,
`update_srs`) and the multiple-choice question generator
(`build_question_for_word`).  Python values appearing in the semi-structured
sheet cells are modelled by `PyVal`; dynamic randomness (`random.choice`,
`random.sample`, `random.shuffle`) is modelled by deterministic draw
functions parametrised over seed data, quantified universally in the
theorems.  `ast.literal_eval` is external library code and is modelled by an
arbitrary evaluator function `ev : String → Option PyVal` (`none` models an
exception being raised).
-/

/-- A dynamically-typed Python value, as found in a sheet cell. -/
inductive PyVal where
  | pystr (s : String)
  | pyint (n : Int)
  | pynone
  | pylist (xs : List PyVal)

/-- Python `str(v)` on scalar values (only reached for non-list values). -/
def pyToString : PyVal → String
  | .pystr s => s
  | .pyint n => toString n
  | .pynone => "None"
  | .pylist _ => "[..]"

/-- Python `str.strip()`: drop whitespace at both ends (structurally
recursive so that concrete instances evaluate). -/
def pyStrip (s : String) : String :=
  String.mk (((s.data.dropWhile Char.isWhitespace).reverse.dropWhile
    Char.isWhitespace).reverse)

/-- Python `str.lower()` (ASCII case folding as in `Char.toLower`). -/
def pyLower (s : String) : String :=
  String.mk (s.data.map Char.toLower)

/-- Embedding of `parse_list` (src/main.py lines 288-299).  `ev` models
`ast.literal_eval`, with `none` standing for a raised exception. -/
def parse_list (ev : String → Option PyVal) (x : PyVal) : List PyVal :=
  match x with
  | .pylist xs => xs
  | .pystr s =>
    if pyStrip s ≠ "" then
      match ev s with
      | some (.pylist vs) => vs
      | some v => [PyVal.pystr (pyToString v)]
      | none => [PyVal.pystr s]
    else []
  | _ => []

/-- A row of the vocabulary table (`st.session_state.vocab_db`). -/
structure VocabRow where
  id : Int
  word : String
  pos : String
  topic : String
  level : Int
  synonyms : PyVal
  example_blank : String
  confusables : PyVal
  box : Nat
  mistake_count : Nat
  next_review : String

instance : Inhabited VocabRow :=
  ⟨{ id := 0, word := "", pos := "", topic := "", level := 0,
     synonyms := .pynone, example_blank := "", confusables := .pynone,
     box := 0, mistake_count := 0, next_review := "" }⟩

/-- The session configuration assembled on the setup screen. -/
structure SessionConfig where
  difficulty : Int × Int
  topic : String
  mode : String

/-- The running session counters (`st.session_state.session_stats`). -/
structure SessionStats where
  correct : Nat
  wrong : Nat
  total : Nat

/-- `random.choice(l)`: the drawn element, the draw being encoded by an
arbitrary index `n` reduced modulo the length. -/
def pyChoice (l : List String) (n : Nat) : String :=
  l.getD (n % l.length) ""

/-- Common core of `random.sample` / `random.shuffle`: repeatedly draw an
element at a seed-determined position and remove it. -/
def drawAux : Nat → List String → List Nat → List String
  | 0, _, _ => []
  | _ + 1, [], _ => []
  | n + 1, l@(_ :: _), seeds =>
    let i := seeds.headD 0 % l.length
    l.getD i "" :: drawAux n (l.eraseIdx i) seeds.tail

/-- `random.sample(l, k)`: `k` distinct positions drawn without
replacement. -/
def pySample (k : Nat) (l : List String) (seeds : List Nat) : List String :=
  drawAux k l seeds

/-- `random.shuffle(l)`: a seed-determined permutation of `l`. -/
def pyShuffle (l : List String) (seeds : List Nat) : List String :=
  drawAux l.length l seeds

/-- The candidate set computed by `get_next_word` (src/main.py lines
227-248): the level mask, the topic mask and the mode-dependent logic
mask.  Dates are ISO strings compared lexicographically, as in the
pandas comparison `df['next_review'] <= today_str`. -/
def next_word_candidates (df : List VocabRow) (config : SessionConfig)
    (today : String) : List VocabRow :=
  df.filter (fun r =>
    (decide (config.difficulty.1 ≤ r.level) &&
      decide (r.level ≤ config.difficulty.2)) &&
    (config.topic == "All" || r.topic == config.topic) &&
    (if config.mode == "Review Mistakes Only"
     then r.box == 0 && decide (0 < r.mistake_count)
     else decide (r.next_review ≤ today)))

/-- The mistakes-only candidate set: level and topic mask plus
`box == 0 AND mistake_count > 0`. -/
def mistakes_candidates (df : List VocabRow) (config : SessionConfig) :
    List VocabRow :=
  df.filter (fun r =>
    (decide (config.difficulty.1 ≤ r.level) &&
      decide (r.level ≤ config.difficulty.2)) &&
    (config.topic == "All" || r.topic == config.topic) &&
    (r.box == 0 && decide (0 < r.mistake_count)))

/-- Embedding of `get_next_word` (src/main.py lines 227-253).  The uniform
draw of `candidates.sample(1)` is encoded by an arbitrary index `n`. -/
def get_next_word (df : List VocabRow) (config : SessionConfig)
    (today : String) (n : Nat) : Option Int :=
  let candidates := next_word_candidates df config today
  if candidates.length = 0 then none
  else some ((candidates.getD (n % candidates.length) default).id)

/-- The per-row SRS transition performed by `update_srs` (src/main.py lines
262-281).  `dateStr` models the external conversion
`str(datetime.date.today() + datetime.timedelta(days=d))`, with days counted
from an abstract `today`. -/
def srs_advance_row (row : VocabRow) (is_correct : Bool)
    (dateStr : Nat → String) (today : Nat) : VocabRow :=
  let current_box := row.box
  let current_mistakes := row.mistake_count
  let new_box := if is_correct then min (current_box + 1) 5 else 0
  let days_to_add := if is_correct then 2 ^ new_box else 0
  let new_mistakes := if is_correct then current_mistakes else current_mistakes + 1
  { row with box := new_box,
             next_review := dateStr (today + days_to_add),
             mistake_count := new_mistakes }

/-- The session-stats update performed by `update_srs`: `correct`/`wrong`
according to the response, `total` always. -/
def bump_stats (stats : SessionStats) (is_correct : Bool) : SessionStats :=
  { correct := if is_correct then stats.correct + 1 else stats.correct,
    wrong := if is_correct then stats.wrong else stats.wrong + 1,
    total := stats.total + 1 }

/-- Embedding of `update_srs` (src/main.py lines 255-286): locate the first
row with the given id (no-op when absent), apply the SRS transition and bump
the stats.  The trailing sheet save is external I/O and not modelled. -/
def update_srs (df : List VocabRow) (stats : SessionStats) (word_id : Int)
    (is_correct : Bool) (dateStr : Nat → String) (today : Nat) :
    List VocabRow × SessionStats :=
  match df.findIdx? (fun r => r.id == word_id) with
  | none => (df, stats)
  | some idx =>
    match df[idx]? with
    | none => (df, stats)
    | some row =>
      (df.set idx (srs_advance_row row is_correct dateStr today),
       bump_stats stats is_correct)

/-- Concrete sample data used by the witness theorems. -/
def sampleRow1 : VocabRow :=
  { id := 1, word := "ameliorate", pos := "verb", topic := "Science",
    level := 2,
    synonyms := .pylist [.pystr ("improve"), .pystr ("better")],
    example_blank := "", confusables := .pylist [],
    box := 0, mistake_count := 1, next_review := "0000-00-00" }

/-- A row that is due but has no recorded mistake (box 1). -/
def sampleRow2 : VocabRow :=
  { id := 2, word := "keen", pos := "adj", topic := "Science",
    level := 1,
    synonyms := .pylist [.pystr ("sharp")],
    example_blank := "", confusables := .pylist [],
    box := 1, mistake_count := 0, next_review := "0000-00-00" }

/-- Zeroed session stats. -/
def sampleStats : SessionStats := { correct := 0, wrong := 0, total := 0 }

/-- A concrete date serialisation for witnesses. -/
def sampleDateStr : Nat → String := fun n => toString n

/-- A mistakes-only session configuration over all topics. -/
def sampleConfigMistakes : SessionConfig :=
  { difficulty := (1, 3), topic := "All", mode := "Review Mistakes Only" }

/-- The random draws consumed by one `build_question_for_word` call. -/
structure Rng where
  qtypeIdx : Nat
  correctIdx : Nat
  sampleSeeds : List Nat
  fillerSeeds : List Nat
  optSeeds : List Nat

/-- The comprehension filter `isinstance(s, str) and s.strip() != ""`. -/
def pyStrNonEmpty : PyVal → Option String
  | .pystr s => if pyStrip s ≠ "" then some s else none
  | _ => none

/-- Parse a list field and keep the elements that are non-blank strings. -/
def filteredStrs (ev : String → Option PyVal) (v : PyVal) : List String :=
  (parse_list ev v).filterMap pyStrNonEmpty

/-- The target synonyms filtered to non-blank strings (line 320-321). -/
def filteredSyns (ev : String → Option PyVal) (r : VocabRow) : List String :=
  filteredStrs ev r.synonyms

/-- The confusable strings of a row, filtered to non-blank strings. -/
def confStrings (ev : String → Option PyVal) (r : VocabRow) : List String :=
  filteredStrs ev r.confusables

/-- The derived `pos_norm` column: `pos.fillna('').str.strip().lower()`. -/
def posNorm (r : VocabRow) : String := pyLower (pyStrip r.pos)

/-- `can_blank` (line 309): the stripped blank stem is non-empty and not a
null-like sentinel. -/
def canBlank (r : VocabRow) : Bool :=
  let example_blank := pyStrip r.example_blank
  example_blank != "" && !(["nan", "none"].contains (pyLower example_blank))

/-- The option-accumulation loops of the blank branch (lines 369-373 and
388-392): append elements not already present until 4 options exist. -/
def addDistinct4 : List String → List String → List String
  | options, [] => options
  | options, c :: rest =>
    if 4 ≤ options.length then options
    else if options.contains c then addDistinct4 options rest
    else addDistinct4 (options ++ [c]) rest

/-- The generic placeholder `f-string` label `"Option {n}"`. -/
def optLabel (n : Nat) : String := "Option " ++ toString n

/-- Fueled form of the `while len(options) < 4` padding loop (line 394). -/
def padAux : Nat → List String → List String
  | 0, options => options
  | n + 1, options =>
    if 4 ≤ options.length then options
    else padAux n (options ++ [optLabel options.length])

/-- The padding loop; four iterations always suffice. -/
def padOptions (options : List String) : List String := padAux 4 options

/-- The tuple returned by `build_question_for_word`. -/
structure Question where
  qtype : String
  question_text : String
  options : List String
  correct_set : List String
  example_blank : String

/-- The distractor candidate rows of the synonym branch (lines 335-340):
same normalised pos if possible, otherwise the whole pool minus target. -/
def syn_candidate_df (target_pos : String) (new_id : Int)
    (df_all : List VocabRow) : List VocabRow :=
  if target_pos != "" && target_pos != "nan" then
    if (df_all.filter (fun r => posNorm r == target_pos &&
        r.id != new_id)).isEmpty then
      df_all.filter (fun r => r.id != new_id)
    else df_all.filter (fun r => posNorm r == target_pos && r.id != new_id)
  else df_all.filter (fun r => r.id != new_id)

/-- The deduplicated wrong-answer pool of the synonym branch (lines
342-348): every non-blank synonym string of the candidate rows that is not
itself a correct answer. -/
def syn_wrong_pool (ev : String → Option PyVal) (target_pos : String)
    (new_id : Int) (correct_list : List String) (df_all : List VocabRow) :
    List String :=
  (((syn_candidate_df target_pos new_id df_all).flatMap
      (fun r => filteredSyns ev r)).filter
    (fun w => w != "" && !(correct_list.contains w))).dedup

/-- The three wrong options (lines 349-354): a 3-sample of the wrong pool,
or the whole pool padded with `"Option A"/"B"/"C"` placeholders. -/
def syn_wrong_options (rng : Rng) (wrong_pool : List String) : List String :=
  if 3 ≤ wrong_pool.length then pySample 3 wrong_pool rng.sampleSeeds
  else wrong_pool ++ (["Option A", "Option B", "Option C"].take
    (3 - wrong_pool.length))

/-- The `[A] Synonym` branch (lines 328-359), for an already-computed
non-empty synonym list `syns`. -/
def synonym_question (ev : String → Option PyVal) (rng : Rng)
    (word_text target_pos : String) (new_id : Int) (syns : List String)
    (df_all : List VocabRow) : Question :=
  let correct_list := syns.dedup
  let correct_option := pyChoice correct_list rng.correctIdx
  let wrong_pool := syn_wrong_pool ev target_pos new_id correct_list df_all
  let options := correct_option :: syn_wrong_options rng wrong_pool
  { qtype := "synonym",
    question_text := "### What is a synonym for: **" ++ word_text ++ "**?",
    options := pyShuffle options rng.optSeeds,
    correct_set := correct_list, example_blank := "" }

/-- The filler candidate rows of the blank branch (lines 376-382): pool
minus target, narrowed by topic, then by pos when non-empty. -/
def blank_cand1 (target_topic : String) (new_id : Int)
    (df_all : List VocabRow) : List VocabRow :=
  if target_topic != "" then
    (df_all.filter (fun r => r.id != new_id)).filter
      (fun r => r.topic == target_topic)
  else df_all.filter (fun r => r.id != new_id)

/-- Second narrowing stage of the filler candidates: by pos, kept only when
non-empty. -/
def blank_cand (target_pos target_topic : String) (new_id : Int)
    (df_all : List VocabRow) : List VocabRow :=
  if target_pos != "" && target_pos != "nan" then
    if ((blank_cand1 target_topic new_id df_all).filter
        (fun r => posNorm r == target_pos)).isEmpty then
      blank_cand1 target_topic new_id df_all
    else (blank_cand1 target_topic new_id df_all).filter
      (fun r => posNorm r == target_pos)
  else blank_cand1 target_topic new_id df_all

/-- The deduplicated filler words of the blank branch (lines 384-385). -/
def blank_filler (target_pos target_topic word_text : String) (new_id : Int)
    (df_all : List VocabRow) : List String :=
  (((blank_cand target_pos target_topic new_id df_all).map
      (fun r => r.word)).dedup).filter
    (fun w => w != word_text && pyStrip w != "")

/-- The option list of the blank branch after the confusable and filler
loops but before placeholder padding (lines 368-392): target word, then
confusables, then (when still short of 4) shuffled filler words. -/
def blank_pre_options (ev : String → Option PyVal) (rng : Rng)
    (word_text target_pos target_topic : String) (new_id : Int)
    (confusablesField : PyVal) (df_all : List VocabRow) : List String :=
  if (addDistinct4 [word_text] ((filteredStrs ev confusablesField).filter
      (fun c => c != word_text))).length < 4 then
    addDistinct4
      (addDistinct4 [word_text] ((filteredStrs ev confusablesField).filter
        (fun c => c != word_text)))
      (pyShuffle (blank_filler target_pos target_topic word_text new_id
        df_all) rng.fillerSeeds)
  else
    addDistinct4 [word_text] ((filteredStrs ev confusablesField).filter
      (fun c => c != word_text))

/-- The option list of the blank branch before the final shuffle (lines
368-395): the pre-options padded with `"Option {n}"` placeholders until
exactly 4 options. -/
def blank_options (ev : String → Option PyVal) (rng : Rng)
    (word_text target_pos target_topic : String) (new_id : Int)
    (confusablesField : PyVal) (df_all : List VocabRow) : List String :=
  padOptions (blank_pre_options ev rng word_text target_pos target_topic
    new_id confusablesField df_all)

/-- The `[B] Blank MCQ` branch (lines 361-398). -/
def blank_question (ev : String → Option PyVal) (rng : Rng)
    (word_text target_pos target_topic example_blank : String) (new_id : Int)
    (confusablesField : PyVal) (df_all : List VocabRow) : Question :=
  { qtype := "blank",
    question_text := "### Fill in the blank with the best word:",
    options := pyShuffle (blank_options ev rng word_text target_pos
      target_topic new_id confusablesField df_all) rng.optSeeds,
    correct_set := [word_text], example_blank := example_blank }

/-- Embedding of `build_question_for_word` (src/main.py lines 301-398). -/
def build_question_for_word (ev : String → Option PyVal) (rng : Rng)
    (word_row : VocabRow) (df_all : List VocabRow) : Question :=
  let new_id := word_row.id
  let word_text := pyStrip word_row.word
  let target_pos := pyLower (pyStrip word_row.pos)
  let target_topic := pyStrip word_row.topic
  let example_blank := pyStrip word_row.example_blank
  let can_blank := canBlank word_row
  let qtype0 := pyChoice ["synonym", "blank"] rng.qtypeIdx
  let qtype1 := if qtype0 == "blank" && !can_blank then "synonym" else qtype0
  if qtype1 == "synonym" then
    let synonyms := filteredSyns ev word_row
    if synonyms.isEmpty && can_blank then
      blank_question ev rng word_text target_pos target_topic example_blank
        new_id word_row.confusables df_all
    else
      let syns := if synonyms.isEmpty then [word_text] else synonyms
      synonym_question ev rng word_text target_pos new_id syns df_all
  else
    blank_question ev rng word_text target_pos target_topic example_blank
      new_id word_row.confusables df_all

/-- The ambient session state relevant to the scheduler and generator. -/
structure AppState where
  vocab_db : List VocabRow
  session_stats : SessionStats

/-- `get_next_word` as a state transformer on the session state: the
function only reads `st.session_state.vocab_db`. -/
def get_next_word_st (st : AppState) (config : SessionConfig) (today : String)
    (n : Nat) : Option Int × AppState :=
  (get_next_word st.vocab_db config today n, st)

/-- `build_question_for_word` as a state transformer on the session state:
the function reads the table and mutates only its private copy `df_pool`. -/
def build_question_st (st : AppState) (ev : String → Option PyVal) (rng : Rng)
    (word_row : VocabRow) : Question × AppState :=
  (build_question_for_word ev rng word_row st.vocab_db, st)

/-- Modelled from the spec: the List Field Codec output the claim expects
for a sequence input, namely the input filtered to non-empty strings. -/
def spec_filter_nonempty_strings (xs : List PyVal) : List PyVal :=
  xs.filter (fun v => match v with | .pystr s => s != "" | _ => false)

/-- Every placeholder label either branch of the generator can emit: the
synonym branch uses `"Option A"/"B"/"C"`, the blank branch pads with
`"Option {n}"` where `1 ≤ n ≤ 3`. -/
def placeholderLabels : List String :=
  ["Option A", "Option B", "Option C", "Option 1", "Option 2", "Option 3"]

/-- No string datum of the target row collides with a placeholder label. -/
abbrev cleanRow (ev : String → Option PyVal) (r : VocabRow) : Prop :=
  pyStrip r.word ∉ placeholderLabels ∧
  (∀ s ∈ filteredSyns ev r, s ∉ placeholderLabels) ∧
  (∀ s ∈ confStrings ev r, s ∉ placeholderLabels)

/-- No word or synonym string of any pool row collides with a placeholder
label. -/
abbrev cleanPool (ev : String → Option PyVal) (df : List VocabRow) : Prop :=
  ∀ r ∈ df, r.word ∉ placeholderLabels ∧
    ∀ s ∈ filteredSyns ev r, s ∉ placeholderLabels

/-- An evaluator on which `ast.literal_eval` always raises. -/
def evNone : String → Option PyVal := fun _ => none

/-- Concrete random draws: first list element everywhere, identity
shuffles. -/
def sampleRng : Rng :=
  { qtypeIdx := 0, correctIdx := 0, sampleSeeds := [], fillerSeeds := [],
    optSeeds := [] }

/-- Concrete random draws selecting the blank question kind. -/
def sampleRngBlank : Rng :=
  { qtypeIdx := 1, correctIdx := 0, sampleSeeds := [], fillerSeeds := [],
    optSeeds := [] }

/-- A row with no synonyms and no usable blank stem. -/
def sampleRow3 : VocabRow :=
  { id := 3, word := "gap", pos := "", topic := "", level := 1,
    synonyms := .pylist [], example_blank := "", confusables := .pylist [],
    box := 0, mistake_count := 0, next_review := "0000-00-00" }

/-- A row with a usable blank stem and one confusable. -/
def sampleRowBlank : VocabRow :=
  { id := 4, word := "impact", pos := "noun", topic := "Science", level := 1,
    synonyms := .pylist [.pystr ("effect")],
    example_blank := "The ____ was strong.",
    confusables := .pylist [.pystr ("impart")],
    box := 0, mistake_count := 0, next_review := "0000-00-00" }

/-- Counterexample target: an all-blank row whose stripped word is empty. -/
def cexTarget : VocabRow :=
  { id := 1, word := "", pos := "", topic := "", level := 1,
    synonyms := .pylist [], example_blank := "", confusables := .pylist [],
    box := 0, mistake_count := 0, next_review := "0000-00-00" }

/-- Counterexample pool row whose only synonym collides with the
`"Option A"` placeholder label. -/
def cexOther : VocabRow :=
  { id := 2, word := "beta", pos := "", topic := "", level := 1,
    synonyms := .pylist [.pystr ("Option A")], example_blank := "",
    confusables := .pylist [],
    box := 0, mistake_count := 0, next_review := "0000-00-00" }

theorem pyChoice_mem {l : List String} (n : Nat) (h : l ≠ []) :
    pyChoice l n ∈ l := by
  have hlen : 0 < l.length := List.length_pos.mpr h
  have hlt : n % l.length < l.length := Nat.mod_lt _ hlen
  simp only [pyChoice, List.getD_eq_getElem?_getD, List.getElem?_eq_getElem hlt,
    Option.getD_some]
  exact List.getElem_mem _

theorem cons_getD_eraseIdx_perm :
    ∀ (l : List String) (i : Nat), i < l.length →
      List.Perm (l.getD i "" :: l.eraseIdx i) l := by
  intro l
  induction l with
  | nil => intro i h; simp at h
  | cons a t ih =>
    intro i h
    cases i with
    | zero => simp
    | succ j =>
      have hj : j < t.length := by simpa using h
      have h1 := ih j hj
      simp only [List.getD_cons_succ, List.eraseIdx_cons_succ]
      exact List.Perm.trans (List.Perm.swap a (t.getD j "") _) (List.Perm.cons a h1)

theorem drawAux_perm :
    ∀ (n : Nat) (l : List String) (seeds : List Nat), l.length ≤ n →
      List.Perm (drawAux n l seeds) l := by
  intro n
  induction n with
  | zero =>
    intro l seeds h
    have : l = [] := List.length_eq_zero.mp (Nat.le_zero.mp h)
    subst this; simp [drawAux]
  | succ m ih =>
    intro l seeds h
    match l with
    | [] => simp [drawAux]
    | a :: t =>
      simp only [drawAux]
      set i := seeds.headD 0 % (a :: t).length with hi
      have hlt : i < (a :: t).length := Nat.mod_lt _ (by simp)
      have hlen : ((a :: t).eraseIdx i).length ≤ m := by
        rw [List.length_eraseIdx_of_lt hlt]
        simpa using Nat.le_of_succ_le_succ h
      have h1 := ih ((a :: t).eraseIdx i) seeds.tail hlen
      exact List.Perm.trans (List.Perm.cons _ h1) (cons_getD_eraseIdx_perm _ i hlt)

theorem drawAux_subset :
    ∀ (n : Nat) (l : List String) (seeds : List Nat) (x : String),
      x ∈ drawAux n l seeds → x ∈ l := by
  intro n
  induction n with
  | zero => intro l seeds x h; simp [drawAux] at h
  | succ m ih =>
    intro l seeds x h
    match l with
    | [] => simp [drawAux] at h
    | a :: t =>
      simp only [drawAux, List.mem_cons] at h
      rcases h with h | h
      · subst h
        have hlt : seeds.headD 0 % (a :: t).length < (a :: t).length :=
          Nat.mod_lt _ (by simp)
        exact (cons_getD_eraseIdx_perm _ _ hlt).mem_iff.mp (List.mem_cons_self _ _)
      · exact List.eraseIdx_subset _ _ (ih _ seeds.tail x h)

theorem drawAux_length :
    ∀ (n : Nat) (l : List String) (seeds : List Nat),
      (drawAux n l seeds).length = min n l.length := by
  intro n
  induction n with
  | zero => intro l seeds; simp [drawAux]
  | succ m ih =>
    intro l seeds
    match l with
    | [] => simp [drawAux]
    | a :: t =>
      have hlt : seeds.headD 0 % (t.length + 1) < t.length + 1 :=
        Nat.mod_lt _ (by omega)
      simp only [drawAux, List.length_cons]
      rw [ih, @List.length_eraseIdx_of_lt _ (a :: t) _ hlt]
      simp only [List.length_cons]
      omega

theorem drawAux_nodup :
    ∀ (n : Nat) (l : List String) (seeds : List Nat),
      l.Nodup → (drawAux n l seeds).Nodup := by
  intro n
  induction n with
  | zero => intro l seeds _; simp [drawAux]
  | succ m ih =>
    intro l seeds hnd
    match l with
    | [] => simp [drawAux]
    | a :: t =>
      simp only [drawAux]
      have hlt : seeds.headD 0 % (a :: t).length < (a :: t).length :=
        Nat.mod_lt _ (by simp)
      have hperm := cons_getD_eraseIdx_perm (a :: t) _ hlt
      have hnd2 : ((a :: t).getD (seeds.headD 0 % (a :: t).length) "" ::
          (a :: t).eraseIdx (seeds.headD 0 % (a :: t).length)).Nodup :=
        hperm.symm.nodup hnd
      rw [List.nodup_cons] at hnd2
      refine List.nodup_cons.mpr ⟨?_, ih _ seeds.tail hnd2.2⟩
      intro hmem
      exact hnd2.1 (drawAux_subset _ _ _ _ hmem)

theorem pyShuffle_perm (l : List String) (seeds : List Nat) :
    List.Perm (pyShuffle l seeds) l :=
  drawAux_perm _ _ _ (Nat.le_refl _)

theorem getD_mod_mem {α : Type} (l : List α) (d : α) (n : Nat) (h : l ≠ []) :
    l.getD (n % l.length) d ∈ l := by
  have hlen : 0 < l.length := List.length_pos.mpr h
  have hlt : n % l.length < l.length := Nat.mod_lt _ hlen
  simp only [List.getD_eq_getElem?_getD, List.getElem?_eq_getElem hlt,
    Option.getD_some]
  exact List.getElem_mem _

theorem next_word_candidates_of_mistakes_mode (df : List VocabRow)
    (config : SessionConfig) (today : String)
    (hm : config.mode = "Review Mistakes Only") :
    next_word_candidates df config today = mistakes_candidates df config := by
  unfold next_word_candidates mistakes_candidates
  have hfun : (fun r : VocabRow =>
      (decide (config.difficulty.1 ≤ r.level) &&
        decide (r.level ≤ config.difficulty.2)) &&
      (config.topic == "All" || r.topic == config.topic) &&
      (if config.mode == "Review Mistakes Only"
       then r.box == 0 && decide (0 < r.mistake_count)
       else decide (r.next_review ≤ today))) =
      (fun r : VocabRow =>
      (decide (config.difficulty.1 ≤ r.level) &&
        decide (r.level ≤ config.difficulty.2)) &&
      (config.topic == "All" || r.topic == config.topic) &&
      (r.box == 0 && decide (0 < r.mistake_count))) := by
    funext r
    rw [hm]
    simp
  rw [hfun]

theorem foldl_advance_mistakes (dateStr : Nat → String) :
    ∀ (resps : List (Bool × Nat)) (row : VocabRow),
      (resps.foldl (fun r p => srs_advance_row r p.1 dateStr p.2)
          row).mistake_count =
        row.mistake_count + (resps.filter (fun p => !p.1)).length := by
  intro resps
  induction resps with
  | nil => intro row; simp
  | cons p rest ih =>
    intro row
    simp only [List.foldl_cons, List.filter_cons, ih]
    cases hp : p.1
    · simp [srs_advance_row, hp]
      omega
    · simp [srs_advance_row, hp]

theorem pyStrip_ne_empty {s : String} (h : pyStrip s ≠ "") : s ≠ "" := by
  intro he
  subst he
  exact h rfl

theorem mem_filteredStrs_strip {ev : String → Option PyVal} {v : PyVal}
    {s : String} (h : s ∈ filteredStrs ev v) : pyStrip s ≠ "" := by
  simp only [filteredStrs, List.mem_filterMap] at h
  obtain ⟨a, _, ha⟩ := h
  cases a with
  | pystr t =>
    simp only [pyStrNonEmpty] at ha
    by_cases ht : pyStrip t ≠ ""
    · rw [if_pos ht] at ha
      obtain rfl := Option.some.inj ha
      exact ht
    · rw [if_neg ht] at ha
      cases ha
  | pyint n => simp [pyStrNonEmpty] at ha
  | pynone => simp [pyStrNonEmpty] at ha
  | pylist xs => simp [pyStrNonEmpty] at ha

theorem mem_filteredStrs_ne_empty {ev : String → Option PyVal} {v : PyVal}
    {s : String} (h : s ∈ filteredStrs ev v) : s ≠ "" :=
  pyStrip_ne_empty (mem_filteredStrs_strip h)

theorem pyChoice_two (a b : String) (n : Nat) :
    pyChoice [a, b] n = a ∨ pyChoice [a, b] n = b := by
  rcases Nat.mod_two_eq_zero_or_one n with h | h
  · left
    simp [pyChoice, h]
  · right
    simp [pyChoice, h]

theorem addDistinct4_length_le :
    ∀ (xs options : List String), options.length ≤ 4 →
      (addDistinct4 options xs).length ≤ 4 := by
  intro xs
  induction xs with
  | nil => intro o h; simpa [addDistinct4] using h
  | cons c rest ih =>
    intro o h
    by_cases h4 : 4 ≤ o.length
    · simp only [addDistinct4, if_pos h4]; exact h
    · by_cases hc : o.contains c = true
      · simp only [addDistinct4, if_neg h4, if_pos hc]; exact ih o h
      · simp only [addDistinct4, if_neg h4, if_neg hc]
        refine ih (o ++ [c]) ?_
        simp only [List.length_append, List.length_cons, List.length_nil]
        omega

theorem addDistinct4_le_length :
    ∀ (xs options : List String),
      options.length ≤ (addDistinct4 options xs).length := by
  intro xs
  induction xs with
  | nil => intro o; simp [addDistinct4]
  | cons c rest ih =>
    intro o
    by_cases h4 : 4 ≤ o.length
    · simp only [addDistinct4, if_pos h4]
      exact Nat.le_refl _
    · by_cases hc : o.contains c = true
      · simp only [addDistinct4, if_neg h4, if_pos hc]; exact ih o
      · simp only [addDistinct4, if_neg h4, if_neg hc]
        refine Nat.le_trans ?_ (ih (o ++ [c]))
        simp only [List.length_append, List.length_cons, List.length_nil]
        omega

theorem addDistinct4_nodup :
    ∀ (xs options : List String), options.Nodup →
      (addDistinct4 options xs).Nodup := by
  intro xs
  induction xs with
  | nil => intro o h; simpa [addDistinct4] using h
  | cons c rest ih =>
    intro o h
    by_cases h4 : 4 ≤ o.length
    · simp only [addDistinct4, if_pos h4]; exact h
    · by_cases hc : o.contains c = true
      · simp only [addDistinct4, if_neg h4, if_pos hc]; exact ih o h
      · simp only [addDistinct4, if_neg h4, if_neg hc]
        refine ih (o ++ [c]) ?_
        have hcm : c ∉ o := by
          simpa using hc
        simp [List.nodup_append, h, hcm]

theorem addDistinct4_mem_src :
    ∀ (xs options : List String) (y : String),
      y ∈ addDistinct4 options xs → y ∈ options ∨ y ∈ xs := by
  intro xs
  induction xs with
  | nil => intro o y h; simp only [addDistinct4] at h; exact Or.inl h
  | cons c rest ih =>
    intro o y h
    by_cases h4 : 4 ≤ o.length
    · simp only [addDistinct4, if_pos h4] at h; exact Or.inl h
    · by_cases hc : o.contains c = true
      · simp only [addDistinct4, if_neg h4, if_pos hc] at h
        rcases ih o y h with h1 | h1
        · exact Or.inl h1
        · exact Or.inr (List.mem_cons_of_mem _ h1)
      · simp only [addDistinct4, if_neg h4, if_neg hc] at h
        rcases ih (o ++ [c]) y h with h1 | h1
        · rcases List.mem_append.mp h1 with h2 | h2
          · exact Or.inl h2
          · simp only [List.mem_singleton] at h2
            exact Or.inr (by simp [h2])
        · exact Or.inr (List.mem_cons_of_mem _ h1)

theorem addDistinct4_mem_of :
    ∀ (xs options : List String) (y : String),
      y ∈ options → y ∈ addDistinct4 options xs := by
  intro xs
  induction xs with
  | nil => intro o y h; simpa [addDistinct4] using h
  | cons c rest ih =>
    intro o y h
    by_cases h4 : 4 ≤ o.length
    · simpa only [addDistinct4, if_pos h4] using h
    · by_cases hc : o.contains c = true
      · simp only [addDistinct4, if_neg h4, if_pos hc]; exact ih o y h
      · simp only [addDistinct4, if_neg h4, if_neg hc]
        exact ih (o ++ [c]) y (List.mem_append_left _ h)

theorem placeholder_ne_empty : ∀ x ∈ placeholderLabels, x ≠ "" := by decide

theorem padOptions_spec (o : List String) (h1 : 1 ≤ o.length)
    (h4 : o.length ≤ 4) :
    ∃ labs : List String, padOptions o = o ++ labs ∧ labs.Nodup ∧
      (∀ x ∈ labs, x ∈ placeholderLabels) ∧ (o ++ labs).length = 4 := by
  match o, h1, h4 with
  | [a], _, _ =>
    exact ⟨[optLabel 1, optLabel 2, optLabel 3], rfl, by decide, by decide,
      by simp⟩
  | [a, b], _, _ =>
    exact ⟨[optLabel 2, optLabel 3], rfl, by decide, by decide, by simp⟩
  | [a, b, c], _, _ =>
    exact ⟨[optLabel 3], rfl, by decide, by decide, by simp⟩
  | [a, b, c, d], _, _ =>
    exact ⟨[], by simp [padOptions, padAux], by decide, by decide, by simp⟩
  | a :: b :: c :: d :: e :: t, _, h4 =>
    exact absurd h4 (by simp only [List.length_cons]; omega)

theorem syn_candidate_df_subset (target_pos : String) (new_id : Int)
    (df_all : List VocabRow) :
    ∀ r ∈ syn_candidate_df target_pos new_id df_all, r ∈ df_all := by
  intro r hr
  unfold syn_candidate_df at hr
  split at hr
  · split at hr
    · exact (List.mem_filter.mp hr).1
    · exact (List.mem_filter.mp hr).1
  · exact (List.mem_filter.mp hr).1

theorem blank_cand1_subset (target_topic : String) (new_id : Int)
    (df_all : List VocabRow) :
    ∀ r ∈ blank_cand1 target_topic new_id df_all, r ∈ df_all := by
  intro r hr
  unfold blank_cand1 at hr
  split at hr
  · exact (List.mem_filter.mp (List.mem_filter.mp hr).1).1
  · exact (List.mem_filter.mp hr).1

theorem blank_cand_subset (target_pos target_topic : String) (new_id : Int)
    (df_all : List VocabRow) :
    ∀ r ∈ blank_cand target_pos target_topic new_id df_all, r ∈ df_all := by
  intro r hr
  unfold blank_cand at hr
  split at hr
  · split at hr
    · exact blank_cand1_subset _ _ _ r hr
    · exact blank_cand1_subset _ _ _ r (List.mem_filter.mp hr).1
  · exact blank_cand1_subset _ _ _ r hr

theorem mem_syn_wrong_pool {ev : String → Option PyVal} {target_pos : String}
    {new_id : Int} {correct_list : List String} {df_all : List VocabRow}
    {w : String}
    (h : w ∈ syn_wrong_pool ev target_pos new_id correct_list df_all) :
    w ≠ "" ∧ w ∉ correct_list ∧ ∃ r ∈ df_all, w ∈ filteredSyns ev r := by
  unfold syn_wrong_pool at h
  rw [List.mem_dedup, List.mem_filter] at h
  obtain ⟨h0, hcond⟩ := h
  simp only [Bool.and_eq_true, bne_iff_ne, ne_eq, Bool.not_eq_true'] at hcond
  have hncl : w ∉ correct_list := by simpa using hcond.2
  rw [List.mem_flatMap] at h0
  obtain ⟨r, hr, hw⟩ := h0
  exact ⟨hcond.1, hncl, r, syn_candidate_df_subset _ _ _ r hr, hw⟩

theorem mem_syn_wrong_options {rng : Rng} {wp : List String} {w : String}
    (h : w ∈ syn_wrong_options rng wp) : w ∈ wp ∨ w ∈ placeholderLabels := by
  unfold syn_wrong_options at h
  split at h
  · exact Or.inl (drawAux_subset _ _ _ _ h)
  · rcases List.mem_append.mp h with h1 | h1
    · exact Or.inl h1
    · have hplc : ∀ y ∈ ["Option A", "Option B", "Option C"],
          y ∈ placeholderLabels := by decide
      exact Or.inr (hplc w (List.take_subset _ _ h1))

theorem syn_wrong_options_length (rng : Rng) (wp : List String) :
    (syn_wrong_options rng wp).length = 3 := by
  by_cases h3 : 3 ≤ wp.length
  · simp only [syn_wrong_options, if_pos h3, pySample]
    rw [drawAux_length]
    omega
  · simp only [syn_wrong_options, if_neg h3, List.length_append,
      List.length_take, List.length_cons, List.length_nil]
    omega

theorem syn_wrong_options_nodup (rng : Rng) (wp : List String)
    (hnd : wp.Nodup) (hcl : ∀ w ∈ wp, w ∉ placeholderLabels) :
    (syn_wrong_options rng wp).Nodup := by
  by_cases h3 : 3 ≤ wp.length
  · simp only [syn_wrong_options, if_pos h3, pySample]
    exact drawAux_nodup _ _ _ hnd
  · simp only [syn_wrong_options, if_neg h3]
    rw [List.nodup_append]
    refine ⟨hnd, List.Nodup.sublist (List.take_sublist _ _) (by decide), ?_⟩
    intro x hx hx2
    have hplc : ∀ y ∈ ["Option A", "Option B", "Option C"],
        y ∈ placeholderLabels := by decide
    exact hcl x hx (hplc x (List.take_subset _ _ hx2))

theorem mem_blank_filler {target_pos target_topic word_text : String}
    {new_id : Int} {df_all : List VocabRow} {w : String}
    (h : w ∈ blank_filler target_pos target_topic word_text new_id df_all) :
    w ≠ word_text ∧ w ≠ "" ∧ ∃ r ∈ df_all, r.word = w := by
  unfold blank_filler at h
  rw [List.mem_filter] at h
  obtain ⟨h0, hcond⟩ := h
  simp only [Bool.and_eq_true, bne_iff_ne, ne_eq] at hcond
  rw [List.mem_dedup, List.mem_map] at h0
  obtain ⟨r, hr, hrw⟩ := h0
  exact ⟨hcond.1, pyStrip_ne_empty hcond.2, r,
    blank_cand_subset _ _ _ _ r hr, hrw⟩

theorem synonym_question_core (ev : String → Option PyVal) (rng : Rng)
    (word_text target_pos : String) (new_id : Int) (syns : List String)
    (df_all : List VocabRow) :
    (synonym_question ev rng word_text target_pos new_id syns
      df_all).qtype = "synonym" ∧
    (synonym_question ev rng word_text target_pos new_id syns
      df_all).correct_set = syns.dedup ∧
    (synonym_question ev rng word_text target_pos new_id syns
      df_all).options.length = 4 := by
  refine ⟨rfl, rfl, ?_⟩
  show (pyShuffle (pyChoice syns.dedup rng.correctIdx ::
      syn_wrong_options rng (syn_wrong_pool ev target_pos new_id syns.dedup
        df_all)) rng.optSeeds).length = 4
  rw [(pyShuffle_perm _ _).length_eq]
  simp [syn_wrong_options_length]

theorem synonym_question_distinct (ev : String → Option PyVal) (rng : Rng)
    (word_text target_pos : String) (new_id : Int) (syns : List String)
    (df_all : List VocabRow) (hs : syns ≠ [])
    (h1 : ∀ s ∈ syns, s ≠ "" ∧ s ∉ placeholderLabels)
    (h2 : ∀ r ∈ df_all, ∀ s ∈ filteredSyns ev r, s ∉ placeholderLabels) :
    (synonym_question ev rng word_text target_pos new_id syns
      df_all).options.Nodup ∧
    ∀ o ∈ (synonym_question ev rng word_text target_pos new_id syns
      df_all).options, o ≠ "" := by
  have hdne : syns.dedup ≠ [] := by
    simpa [List.dedup_eq_nil] using hs
  have hco : pyChoice syns.dedup rng.correctIdx ∈ syns :=
    List.mem_dedup.mp (pyChoice_mem _ hdne)
  have hwpcl : ∀ w ∈ syn_wrong_pool ev target_pos new_id syns.dedup df_all,
      w ∉ placeholderLabels := by
    intro w hw
    obtain ⟨_, _, r, hr, hsy⟩ := mem_syn_wrong_pool hw
    exact h2 r hr w hsy
  have hwonodup : (syn_wrong_options rng
      (syn_wrong_pool ev target_pos new_id syns.dedup df_all)).Nodup :=
    syn_wrong_options_nodup rng _ (List.nodup_dedup _) hwpcl
  have hconotin : pyChoice syns.dedup rng.correctIdx ∉
      syn_wrong_options rng
        (syn_wrong_pool ev target_pos new_id syns.dedup df_all) := by
    intro hmem
    rcases mem_syn_wrong_options hmem with hh | hh
    · obtain ⟨_, hncl, _⟩ := mem_syn_wrong_pool hh
      exact hncl (List.mem_dedup.mpr hco)
    · exact (h1 _ hco).2 hh
  have hnodup0 : (pyChoice syns.dedup rng.correctIdx ::
      syn_wrong_options rng
        (syn_wrong_pool ev target_pos new_id syns.dedup df_all)).Nodup :=
    List.nodup_cons.mpr ⟨hconotin, hwonodup⟩
  constructor
  · show (pyShuffle (pyChoice syns.dedup rng.correctIdx ::
        syn_wrong_options rng (syn_wrong_pool ev target_pos new_id syns.dedup
          df_all)) rng.optSeeds).Nodup
    exact (pyShuffle_perm _ _).symm.nodup hnodup0
  · intro o ho
    have ho2 : o ∈ pyChoice syns.dedup rng.correctIdx ::
        syn_wrong_options rng
          (syn_wrong_pool ev target_pos new_id syns.dedup df_all) :=
      (pyShuffle_perm _ _).mem_iff.mp ho
    rcases List.mem_cons.mp ho2 with rfl | hh
    · exact (h1 _ hco).1
    · rcases mem_syn_wrong_options hh with hh2 | hh2
      · exact (mem_syn_wrong_pool hh2).1
      · exact placeholder_ne_empty _ hh2

theorem blank_pre_options_bounds (ev : String → Option PyVal) (rng : Rng)
    (word_text target_pos target_topic : String) (new_id : Int)
    (cf : PyVal) (df_all : List VocabRow) :
    1 ≤ (blank_pre_options ev rng word_text target_pos target_topic new_id
        cf df_all).length ∧
    (blank_pre_options ev rng word_text target_pos target_topic new_id cf
        df_all).length ≤ 4 ∧
    word_text ∈ blank_pre_options ev rng word_text target_pos target_topic
      new_id cf df_all ∧
    (blank_pre_options ev rng word_text target_pos target_topic new_id cf
      df_all).Nodup := by
  have h1lo : 1 ≤ (addDistinct4 [word_text]
      ((filteredStrs ev cf).filter (fun c => c != word_text))).length := by
    simpa using addDistinct4_le_length
      ((filteredStrs ev cf).filter (fun c => c != word_text)) [word_text]
  have h1hi : (addDistinct4 [word_text]
      ((filteredStrs ev cf).filter (fun c => c != word_text))).length ≤ 4 :=
    addDistinct4_length_le _ [word_text] (by simp)
  have hmem1 : word_text ∈ addDistinct4 [word_text]
      ((filteredStrs ev cf).filter (fun c => c != word_text)) :=
    addDistinct4_mem_of _ [word_text] word_text (by simp)
  have hnd1 : (addDistinct4 [word_text]
      ((filteredStrs ev cf).filter (fun c => c != word_text))).Nodup :=
    addDistinct4_nodup _ [word_text] (by simp)
  unfold blank_pre_options
  split
  · exact ⟨le_trans h1lo (addDistinct4_le_length _ _),
      addDistinct4_length_le _ _ h1hi,
      addDistinct4_mem_of _ _ word_text hmem1,
      addDistinct4_nodup _ _ hnd1⟩
  · exact ⟨h1lo, h1hi, hmem1, hnd1⟩

theorem mem_blank_pre_options {ev : String → Option PyVal} {rng : Rng}
    {word_text target_pos target_topic : String} {new_id : Int}
    {cf : PyVal} {df_all : List VocabRow} {y : String}
    (h : y ∈ blank_pre_options ev rng word_text target_pos target_topic
      new_id cf df_all) :
    y = word_text ∨ y ∈ filteredStrs ev cf ∨
      y ∈ blank_filler target_pos target_topic word_text new_id df_all := by
  have hsub1 : ∀ z, z ∈ addDistinct4 [word_text]
      ((filteredStrs ev cf).filter (fun c => c != word_text)) →
      z = word_text ∨ z ∈ filteredStrs ev cf := by
    intro z hz
    rcases addDistinct4_mem_src _ _ z hz with h1 | h1
    · exact Or.inl (by simpa using h1)
    · exact Or.inr (List.mem_filter.mp h1).1
  unfold blank_pre_options at h
  split at h
  · rcases addDistinct4_mem_src _ _ y h with h1 | h1
    · rcases hsub1 y h1 with h2 | h2
      · exact Or.inl h2
      · exact Or.inr (Or.inl h2)
    · exact Or.inr (Or.inr ((pyShuffle_perm _ _).mem_iff.mp h1))
  · rcases hsub1 y h with h2 | h2
    · exact Or.inl h2
    · exact Or.inr (Or.inl h2)

theorem blank_options_spec (ev : String → Option PyVal) (rng : Rng)
    (word_text target_pos target_topic : String) (new_id : Int)
    (cf : PyVal) (df_all : List VocabRow) :
    (blank_options ev rng word_text target_pos target_topic new_id cf
        df_all).length = 4 ∧
    word_text ∈ blank_options ev rng word_text target_pos target_topic
      new_id cf df_all := by
  obtain ⟨hlo, hhi, hmem, _⟩ := blank_pre_options_bounds ev rng word_text
    target_pos target_topic new_id cf df_all
  obtain ⟨labs, heq, _, _, hlen4⟩ := padOptions_spec _ hlo hhi
  constructor
  · show (padOptions (blank_pre_options ev rng word_text target_pos
      target_topic new_id cf df_all)).length = 4
    rw [heq]
    exact hlen4
  · show word_text ∈ padOptions (blank_pre_options ev rng word_text
      target_pos target_topic new_id cf df_all)
    rw [heq]
    exact List.mem_append_left _ hmem

theorem blank_options_distinct (ev : String → Option PyVal) (rng : Rng)
    (word_text target_pos target_topic : String) (new_id : Int)
    (cf : PyVal) (df_all : List VocabRow)
    (hw : word_text ≠ "") (hwpl : word_text ∉ placeholderLabels)
    (hconf : ∀ s ∈ filteredStrs ev cf, s ∉ placeholderLabels)
    (hpool : ∀ r ∈ df_all, r.word ∉ placeholderLabels) :
    (blank_options ev rng word_text target_pos target_topic new_id cf
        df_all).Nodup ∧
    ∀ o ∈ blank_options ev rng word_text target_pos target_topic new_id cf
      df_all, o ≠ "" := by
  obtain ⟨hlo, hhi, _, hnd⟩ := blank_pre_options_bounds ev rng word_text
    target_pos target_topic new_id cf df_all
  obtain ⟨labs, heq, hlnd, hlpl, _⟩ := padOptions_spec _ hlo hhi
  have hprepl : ∀ y ∈ blank_pre_options ev rng word_text target_pos
      target_topic new_id cf df_all, y ∉ placeholderLabels := by
    intro y hy
    rcases mem_blank_pre_options hy with rfl | hy2 | hy2
    · exact hwpl
    · exact hconf y hy2
    · obtain ⟨_, _, r, hr, hrw⟩ := mem_blank_filler hy2
      exact hrw ▸ hpool r hr
  have hprene : ∀ y ∈ blank_pre_options ev rng word_text target_pos
      target_topic new_id cf df_all, y ≠ "" := by
    intro y hy
    rcases mem_blank_pre_options hy with rfl | hy2 | hy2
    · exact hw
    · exact mem_filteredStrs_ne_empty hy2
    · exact (mem_blank_filler hy2).2.1
  constructor
  · show (padOptions (blank_pre_options ev rng word_text target_pos
      target_topic new_id cf df_all)).Nodup
    rw [heq, List.nodup_append]
    exact ⟨hnd, hlnd, fun y hy hy2 => hprepl y hy (hlpl y hy2)⟩
  · intro o ho
    have ho2 : o ∈ padOptions (blank_pre_options ev rng word_text target_pos
        target_topic new_id cf df_all) := ho
    rw [heq] at ho2
    rcases List.mem_append.mp ho2 with h1 | h1
    · exact hprene o h1
    · exact placeholder_ne_empty _ (hlpl o h1)

theorem blank_question_core (ev : String → Option PyVal) (rng : Rng)
    (word_text target_pos target_topic example_blank : String) (new_id : Int)
    (cf : PyVal) (df_all : List VocabRow) :
    (blank_question ev rng word_text target_pos target_topic example_blank
      new_id cf df_all).qtype = "blank" ∧
    (blank_question ev rng word_text target_pos target_topic example_blank
      new_id cf df_all).correct_set = [word_text] ∧
    (blank_question ev rng word_text target_pos target_topic example_blank
      new_id cf df_all).options.length = 4 ∧
    word_text ∈ (blank_question ev rng word_text target_pos target_topic
      example_blank new_id cf df_all).options := by
  refine ⟨rfl, rfl, ?_, ?_⟩
  · show (pyShuffle (blank_options ev rng word_text target_pos target_topic
      new_id cf df_all) rng.optSeeds).length = 4
    rw [(pyShuffle_perm _ _).length_eq]
    exact (blank_options_spec ev rng word_text target_pos target_topic
      new_id cf df_all).1
  · show word_text ∈ pyShuffle (blank_options ev rng word_text target_pos
      target_topic new_id cf df_all) rng.optSeeds
    exact (pyShuffle_perm _ _).mem_iff.mpr (blank_options_spec ev rng
      word_text target_pos target_topic new_id cf df_all).2

theorem blank_question_distinct (ev : String → Option PyVal) (rng : Rng)
    (word_text target_pos target_topic example_blank : String) (new_id : Int)
    (cf : PyVal) (df_all : List VocabRow)
    (hw : word_text ≠ "") (hwpl : word_text ∉ placeholderLabels)
    (hconf : ∀ s ∈ filteredStrs ev cf, s ∉ placeholderLabels)
    (hpool : ∀ r ∈ df_all, r.word ∉ placeholderLabels) :
    (blank_question ev rng word_text target_pos target_topic example_blank
      new_id cf df_all).options.Nodup ∧
    ∀ o ∈ (blank_question ev rng word_text target_pos target_topic
      example_blank new_id cf df_all).options, o ≠ "" := by
  obtain ⟨hnd, hne⟩ := blank_options_distinct ev rng word_text target_pos
    target_topic new_id cf df_all hw hwpl hconf hpool
  constructor
  · show (pyShuffle (blank_options ev rng word_text target_pos target_topic
      new_id cf df_all) rng.optSeeds).Nodup
    exact (pyShuffle_perm _ _).symm.nodup hnd
  · intro o ho
    exact hne o ((pyShuffle_perm _ _).mem_iff.mp ho)

theorem build_question_split (ev : String → Option PyVal) (rng : Rng)
    (row : VocabRow) (df_all : List VocabRow) :
    (canBlank row = true ∧
      (pyChoice ["synonym", "blank"] rng.qtypeIdx = "blank" ∨
        filteredSyns ev row = []) ∧
      build_question_for_word ev rng row df_all =
        blank_question ev rng (pyStrip row.word) (pyLower (pyStrip row.pos))
          (pyStrip row.topic) (pyStrip row.example_blank) row.id
          row.confusables df_all) ∨
    (¬(canBlank row = true ∧
        (pyChoice ["synonym", "blank"] rng.qtypeIdx = "blank" ∨
          filteredSyns ev row = [])) ∧
      ∃ syns, syns ≠ [] ∧
        (syns = filteredSyns ev row ∨
          (filteredSyns ev row = [] ∧ syns = [pyStrip row.word])) ∧
        build_question_for_word ev rng row df_all =
          synonym_question ev rng (pyStrip row.word)
            (pyLower (pyStrip row.pos)) row.id syns df_all) := by
  rcases pyChoice_two "synonym" "blank" rng.qtypeIdx with hd | hd
  · cases hcb : canBlank row
    · cases hse : (filteredSyns ev row).isEmpty
      · refine Or.inr ⟨?_, filteredSyns ev row, ?_, Or.inl rfl, ?_⟩
        · rintro ⟨h1, _⟩
          cases h1
        · intro hnil
          rw [hnil] at hse
          simp at hse
        · simp [build_question_for_word, hd, hcb, hse]
      · refine Or.inr ⟨?_, [pyStrip row.word], ?_,
          Or.inr ⟨List.isEmpty_iff.mp hse, rfl⟩, ?_⟩
        · rintro ⟨h1, _⟩
          cases h1
        · exact List.cons_ne_nil _ _
        · simp [build_question_for_word, hd, hcb, hse]
    · cases hse : (filteredSyns ev row).isEmpty
      · refine Or.inr ⟨?_, filteredSyns ev row, ?_, Or.inl rfl, ?_⟩
        · rintro ⟨_, h2 | h2⟩
          · rw [hd] at h2
            exact absurd h2 (by decide)
          · rw [h2] at hse
            simp at hse
        · intro hnil
          rw [hnil] at hse
          simp at hse
        · simp [build_question_for_word, hd, hcb, hse]
      · exact Or.inl ⟨rfl, Or.inr (List.isEmpty_iff.mp hse),
          by simp [build_question_for_word, hd, hcb, hse]⟩
  · cases hcb : canBlank row
    · cases hse : (filteredSyns ev row).isEmpty
      · refine Or.inr ⟨?_, filteredSyns ev row, ?_, Or.inl rfl, ?_⟩
        · rintro ⟨h1, _⟩
          cases h1
        · intro hnil
          rw [hnil] at hse
          simp at hse
        · simp [build_question_for_word, hd, hcb, hse]
      · refine Or.inr ⟨?_, [pyStrip row.word], ?_,
          Or.inr ⟨List.isEmpty_iff.mp hse, rfl⟩, ?_⟩
        · rintro ⟨h1, _⟩
          cases h1
        · exact List.cons_ne_nil _ _
        · simp [build_question_for_word, hd, hcb, hse]
    · exact Or.inl ⟨rfl, Or.inl hd,
        by simp [build_question_for_word, hd, hcb]⟩

theorem build_question_qtype (ev : String → Option PyVal) (rng : Rng)
    (row : VocabRow) (df_all : List VocabRow) :
    (build_question_for_word ev rng row df_all).qtype =
      if canBlank row &&
          ((pyChoice ["synonym", "blank"] rng.qtypeIdx == "blank") ||
            (filteredSyns ev row).isEmpty)
      then "blank" else "synonym" := by
  have hcond : (canBlank row &&
      ((pyChoice ["synonym", "blank"] rng.qtypeIdx == "blank") ||
        (filteredSyns ev row).isEmpty)) = true ↔
      (canBlank row = true ∧
        (pyChoice ["synonym", "blank"] rng.qtypeIdx = "blank" ∨
          filteredSyns ev row = [])) := by
    simp [Bool.and_eq_true, Bool.or_eq_true, List.isEmpty_iff]
  rcases build_question_split ev rng row df_all with ⟨hcb, hor, heq⟩ |
    ⟨hn, syns, _, _, heq⟩
  · rw [heq, if_pos (hcond.mpr ⟨hcb, hor⟩)]
    rfl
  · rw [heq, if_neg (fun h => hn (hcond.mp h))]
    rfl

theorem build_question_options_length (ev : String → Option PyVal)
    (rng : Rng) (row : VocabRow) (df_all : List VocabRow) :
    (build_question_for_word ev rng row df_all).options.length = 4 := by
  rcases build_question_split ev rng row df_all with ⟨_, _, heq⟩ |
    ⟨_, syns, _, _, heq⟩
  · rw [heq]
    exact (blank_question_core ev rng (pyStrip row.word)
      (pyLower (pyStrip row.pos)) (pyStrip row.topic)
      (pyStrip row.example_blank) row.id row.confusables df_all).2.2.1
  · rw [heq]
    exact (synonym_question_core ev rng (pyStrip row.word)
      (pyLower (pyStrip row.pos)) row.id syns df_all).2.2

/-- C1: for every item and every advance call, a correct response sets the
box to `min(box+1, 5)` and `next_review` to today plus `2^new_box` days,
and an incorrect response sets the box to `0` and `next_review` to today. -/
theorem update_srs_box_and_next_review (df : List VocabRow)
    (stats : SessionStats) (word_id : Int) (c : Bool) (dateStr : Nat → String)
    (today : Nat) (idx : Nat) (row : VocabRow)
    (hidx : df.findIdx? (fun r => r.id == word_id) = some idx)
    (hrow : df[idx]? = some row) :
    ((update_srs df stats word_id c dateStr today).1)[idx]? =
        some (srs_advance_row row c dateStr today) ∧
    (c = true → (srs_advance_row row c dateStr today).box = min (row.box + 1) 5 ∧
        (srs_advance_row row c dateStr today).next_review =
          dateStr (today + 2 ^ min (row.box + 1) 5)) ∧
    (c = false → (srs_advance_row row c dateStr today).box = 0 ∧
        (srs_advance_row row c dateStr today).next_review = dateStr today) := by
  refine ⟨?_, ?_, ?_⟩
  · have hlt : idx < df.length := by
      rcases List.getElem?_eq_some_iff.mp hrow with ⟨h, _⟩
      exact h
    simp only [update_srs, hidx, hrow]
    exact List.getElem?_set_eq_of_lt _ (by simpa using hlt)
  · intro hc; subst hc; simp [srs_advance_row]
  · intro hc; subst hc; simp [srs_advance_row]

/-- C1 witness: a correct answer on a concrete one-row table. -/
theorem update_srs_box_and_next_review_witness :
    ((update_srs [sampleRow1] sampleStats 1 true sampleDateStr 0).1)[0]? =
      some (srs_advance_row sampleRow1 true sampleDateStr 0) :=
  (update_srs_box_and_next_review [sampleRow1] sampleStats 1 true sampleDateStr
    0 0 sampleRow1 rfl rfl).1

/-- C3: `get_next_word` returns `none` exactly when the level/topic/mode
filtered candidate set is empty, and otherwise returns the id of some row of
that candidate set. -/
theorem get_next_word_none_iff_empty (df : List VocabRow)
    (config : SessionConfig) (today : String) (n : Nat) :
    (get_next_word df config today n = none ↔
      next_word_candidates df config today = []) ∧
    ∀ i, get_next_word df config today n = some i →
      ∃ r ∈ next_word_candidates df config today, r.id = i := by
  by_cases hc : next_word_candidates df config today = []
  · constructor
    · simp [get_next_word, hc]
    · intro i hi
      simp [get_next_word, hc] at hi
  · have hlen : (next_word_candidates df config today).length ≠ 0 := by
      simpa [List.length_eq_zero] using hc
    constructor
    · simp [get_next_word, hlen, hc]
    · intro i hi
      simp only [get_next_word, if_neg hlen, Option.some.injEq] at hi
      exact ⟨(next_word_candidates df config today).getD
        (n % (next_word_candidates df config today).length) default,
        getD_mod_mem _ _ _ hc, hi⟩

/-- C3 witness: on a concrete table the returned id belongs to the
candidate set. -/
theorem get_next_word_none_iff_empty_witness :
    ∃ r ∈ next_word_candidates [sampleRow1, sampleRow2]
        sampleConfigMistakes "2026-01-01", r.id = 1 :=
  (get_next_word_none_iff_empty [sampleRow1, sampleRow2] sampleConfigMistakes
    "2026-01-01" 0).2 1 rfl

/-- C4: in mistakes-only mode, when no row passes `box == 0 AND
mistake_count > 0` inside the level/topic filter, `get_next_word` returns
`none` (it never falls back to the standard due-date rule). -/
theorem get_next_word_mistakes_only_none (df : List VocabRow)
    (config : SessionConfig) (today : String) (n : Nat)
    (hm : config.mode = "Review Mistakes Only")
    (h : mistakes_candidates df config = []) :
    get_next_word df config today n = none := by
  have hc : next_word_candidates df config today = [] := by
    rw [next_word_candidates_of_mistakes_mode df config today hm, h]
  simp [get_next_word, hc]

/-- C4 witness: a due item with no recorded mistakes yields `none` in
mistakes-only mode. -/
theorem get_next_word_mistakes_only_none_witness :
    get_next_word [sampleRow2] sampleConfigMistakes "2026-01-01" 0 = none :=
  get_next_word_mistakes_only_none [sampleRow2] sampleConfigMistakes
    "2026-01-01" 0 rfl rfl

/-- C7: across any sequence of advance calls, `mistake_count` never
decreases; it is unchanged by a correct response and grows by exactly 1 on
each incorrect response. -/
theorem mistake_count_monotone (dateStr : Nat → String) (row : VocabRow)
    (resps : List (Bool × Nat)) :
    (∀ (r : VocabRow) (t : Nat),
      (srs_advance_row r true dateStr t).mistake_count = r.mistake_count) ∧
    (∀ (r : VocabRow) (t : Nat),
      (srs_advance_row r false dateStr t).mistake_count = r.mistake_count + 1) ∧
    (resps.foldl (fun r p => srs_advance_row r p.1 dateStr p.2)
        row).mistake_count =
      row.mistake_count + (resps.filter (fun p => !p.1)).length ∧
    row.mistake_count ≤
      (resps.foldl (fun r p => srs_advance_row r p.1 dateStr p.2)
        row).mistake_count := by
  refine ⟨fun r t => by simp [srs_advance_row],
          fun r t => by simp [srs_advance_row], ?_, ?_⟩
  · exact foldl_advance_mistakes dateStr resps row
  · rw [foldl_advance_mistakes dateStr resps row]
    omega

/-- C10: calling `update_srs` with an id matching no row is a complete
no-op: the table and all session counters are unchanged. -/
theorem update_srs_missing_id_noop (df : List VocabRow)
    (stats : SessionStats) (word_id : Int) (c : Bool) (dateStr : Nat → String)
    (today : Nat)
    (h : df.findIdx? (fun r => r.id == word_id) = none) :
    update_srs df stats word_id c dateStr today = (df, stats) := by
  simp [update_srs, h]

/-- C10 witness: an absent id leaves a concrete table and stats intact. -/
theorem update_srs_missing_id_noop_witness :
    update_srs [sampleRow1] sampleStats 99 true sampleDateStr 0 =
      ([sampleRow1], sampleStats) :=
  update_srs_missing_id_noop [sampleRow1] sampleStats 99 true sampleDateStr 0
    rfl

/-- C8 (amended): when the input is already a sequence, `parse_list`
returns that sequence unchanged, with no filtering applied. -/
theorem parse_list_seq_unchanged (ev : String → Option PyVal)
    (xs : List PyVal) : parse_list ev (.pylist xs) = xs := rfl

/-- C8 counterexample: on a sequence containing an empty string,
`parse_list` does not filter out the non-(non-empty-string) elements as the
claim states. -/
theorem parse_list_not_filtering_cex :
    parse_list (fun _ => none) (.pylist [.pystr ("")]) ≠
      spec_filter_nonempty_strings [.pystr ("")] := by
  intro h
  have h1 : parse_list (fun _ => none) (.pylist [.pystr ("")]) =
      [.pystr ("")] := rfl
  have h2 : spec_filter_nonempty_strings [.pystr ("")] = [] := rfl
  rw [h1, h2] at h
  exact List.cons_ne_nil _ _ h

/-- C9: selection and generation are read-only with respect to the table:
`get_next_word` and `build_question_for_word` leave the session state, and
in particular every row of the in-memory table, unchanged. -/
theorem selection_generation_read_only (st : AppState)
    (config : SessionConfig) (today : String) (n : Nat)
    (ev : String → Option PyVal) (rng : Rng) (word_row : VocabRow) :
    (get_next_word_st st config today n).2 = st ∧
    (get_next_word_st st config today n).2.vocab_db = st.vocab_db ∧
    (build_question_st st ev rng word_row).2 = st ∧
    (build_question_st st ev rng word_row).2.vocab_db = st.vocab_db :=
  ⟨rfl, rfl, rfl, rfl⟩

/-- C2 (amended): every generated question (synonym or blank kind) has
exactly 4 options; when moreover the target's stripped word is non-empty
and none of the data strings in play (the target's stripped word, filtered
synonyms and confusables, each pool row's word and filtered synonyms)
equals a placeholder label, the 4 options are pairwise distinct and
non-empty. -/
theorem build_question_options_four_distinct (ev : String → Option PyVal)
    (rng : Rng) (row : VocabRow) (df_all : List VocabRow)
    (hw : pyStrip row.word ≠ "") (h1 : cleanRow ev row)
    (h2 : cleanPool ev df_all) :
    ((build_question_for_word ev rng row df_all).options.length = 4 ∧
     (build_question_for_word ev rng row df_all).options.Nodup ∧
     ∀ o ∈ (build_question_for_word ev rng row df_all).options, o ≠ "") ∧
    ∀ (ev' : String → Option PyVal) (rng' : Rng) (row' : VocabRow)
      (df' : List VocabRow),
      (build_question_for_word ev' rng' row' df').options.length = 4 := by
  obtain ⟨hwpl, hsynpl, hconfpl⟩ := h1
  refine ⟨⟨build_question_options_length ev rng row df_all, ?_⟩,
    fun ev' rng' row' df' =>
      build_question_options_length ev' rng' row' df'⟩
  rcases build_question_split ev rng row df_all with ⟨_, _, heq⟩ |
    ⟨_, syns, hs, hsy, heq⟩
  · rw [heq]
    exact blank_question_distinct ev rng (pyStrip row.word)
      (pyLower (pyStrip row.pos)) (pyStrip row.topic)
      (pyStrip row.example_blank) row.id row.confusables df_all hw hwpl
      hconfpl (fun r hr => (h2 r hr).1)
  · rw [heq]
    refine synonym_question_distinct ev rng (pyStrip row.word)
      (pyLower (pyStrip row.pos)) row.id syns df_all hs ?_
      (fun r hr => (h2 r hr).2)
    rcases hsy with rfl | ⟨_, rfl⟩
    · exact fun s hssyn => ⟨mem_filteredStrs_ne_empty hssyn, hsynpl s hssyn⟩
    · intro s hs2
      obtain rfl := List.mem_singleton.mp hs2
      exact ⟨hw, hwpl⟩

/-- C2 witness: concrete placeholder-free data yields 4 distinct non-empty
options. -/
theorem build_question_options_four_distinct_witness :
    (build_question_for_word evNone sampleRng sampleRow1
      [sampleRow1, sampleRow2]).options.length = 4 ∧
    (build_question_for_word evNone sampleRng sampleRow1
      [sampleRow1, sampleRow2]).options.Nodup ∧
    ∀ o ∈ (build_question_for_word evNone sampleRng sampleRow1
      [sampleRow1, sampleRow2]).options, o ≠ "" :=
  (build_question_options_four_distinct evNone sampleRng sampleRow1
    [sampleRow1, sampleRow2] (by decide) (by decide) (by decide)).1

/-- C2 counterexample: with a pool synonym equal to the placeholder label
`"Option A"` and an empty target word, the generated options contain a
duplicate and an empty string, refuting the claim as stated. -/
theorem build_question_options_distinct_cex :
    (build_question_for_word evNone sampleRng cexTarget
      [cexTarget, cexOther]).options =
        ["", "Option A", "Option A", "Option B"] ∧
    ¬ ((build_question_for_word evNone sampleRng cexTarget
        [cexTarget, cexOther]).options.Nodup ∧
       ∀ o ∈ (build_question_for_word evNone sampleRng cexTarget
        [cexTarget, cexOther]).options, o ≠ "") := by
  decide

/-- C5: kind selection: a blank draw with an unusable stem produces a
synonym question; empty filtered synonyms with a usable stem produce a
blank question; with neither synonyms nor stem, a synonym question with
`correct_answers = {target word}` is produced.  The final conjunct is the
full kind-selection rule for arbitrary inputs. -/
theorem build_question_kind_selection (ev : String → Option PyVal)
    (rng : Rng) (row : VocabRow) (df_all : List VocabRow)
    (hsyn : filteredSyns ev row = []) (hcb : canBlank row = false) :
    (build_question_for_word ev rng row df_all).qtype = "synonym" ∧
    (build_question_for_word ev rng row df_all).correct_set =
      [pyStrip row.word] ∧
    ∀ (ev' : String → Option PyVal) (rng' : Rng) (row' : VocabRow)
      (df' : List VocabRow),
      (build_question_for_word ev' rng' row' df').qtype =
        if canBlank row' &&
            ((pyChoice ["synonym", "blank"] rng'.qtypeIdx == "blank") ||
              (filteredSyns ev' row').isEmpty)
        then "blank" else "synonym" := by
  refine ⟨?_, ?_,
    fun ev' rng' row' df' => build_question_qtype ev' rng' row' df'⟩
  · rw [build_question_qtype, hcb]
    simp
  · rcases build_question_split ev rng row df_all with ⟨hcb2, _, _⟩ |
      ⟨_, syns, hs, hsy, heq⟩
    · rw [hcb2] at hcb
      cases hcb
    · rcases hsy with rfl | ⟨_, rfl⟩
      · exact absurd hsyn hs
      · rw [heq]
        rw [(synonym_question_core ev rng (pyStrip row.word)
          (pyLower (pyStrip row.pos)) row.id [pyStrip row.word] df_all).2.1]
        simp

/-- C5 witness: a concrete row with no synonyms and no stem produces a
synonym question whose correct set is the target word itself. -/
theorem build_question_kind_selection_witness :
    (build_question_for_word evNone sampleRng sampleRow3
      [sampleRow3]).qtype = "synonym" ∧
    (build_question_for_word evNone sampleRng sampleRow3
      [sampleRow3]).correct_set = [pyStrip sampleRow3.word] :=
  ⟨(build_question_kind_selection evNone sampleRng sampleRow3 [sampleRow3]
      rfl (by decide)).1,
   (build_question_kind_selection evNone sampleRng sampleRow3 [sampleRow3]
      rfl (by decide)).2.1⟩

/-- C6: every generated blank-kind question has
`correct_answers = {target word}` and the target word among its options. -/
theorem blank_kind_correct_answers (ev : String → Option PyVal) (rng : Rng)
    (row : VocabRow) (df_all : List VocabRow)
    (hb : (build_question_for_word ev rng row df_all).qtype = "blank") :
    (build_question_for_word ev rng row df_all).correct_set =
      [pyStrip row.word] ∧
    pyStrip row.word ∈
      (build_question_for_word ev rng row df_all).options := by
  rcases build_question_split ev rng row df_all with ⟨_, _, heq⟩ |
    ⟨_, syns, _, _, heq⟩
  · rw [heq]
    obtain ⟨_, hcs, _, hmem⟩ := blank_question_core ev rng (pyStrip row.word)
      (pyLower (pyStrip row.pos)) (pyStrip row.topic)
      (pyStrip row.example_blank) row.id row.confusables df_all
    exact ⟨hcs, hmem⟩
  · rw [heq] at hb
    have hsb : ("synonym" : String) = "blank" := by
      rw [← (synonym_question_core ev rng (pyStrip row.word)
        (pyLower (pyStrip row.pos)) row.id syns df_all).1]
      exact hb
    exact absurd hsb (by decide)

/-- C6 witness: a concrete blank question contains its target word and has
it as the unique correct answer. -/
theorem blank_kind_correct_answers_witness :
    (build_question_for_word evNone sampleRngBlank sampleRowBlank
      [sampleRowBlank]).correct_set = [pyStrip sampleRowBlank.word] ∧
    pyStrip sampleRowBlank.word ∈ (build_question_for_word evNone
      sampleRngBlank sampleRowBlank [sampleRowBlank]).options :=
  blank_kind_correct_answers evNone sampleRngBlank sampleRowBlank
    [sampleRowBlank] (by decide)
